import Mathlib

/-!
# Verification of the xremap event-handler core

A shallow embedding of the event-handler core of the xremap input-remapping
daemon.  The event handler itself (event_handler.rs, config/keymap.rs) is not
shipped under src/ of this snapshot; only its test suite (src/src/tests.rs) and
the KDE window-manager client (src/src/client/kde_client.rs) are.  The handler
below is therefore modelled from the specification (spec.md sections 3 to 5 and
8), with the concrete expectations of src/src/tests.rs taken as the authority
wherever they pin observable behaviour.  The KDE client is embedded directly
from src/src/client/kde_client.rs.
-/

namespace Xremap

/-! ## Event model (spec section 3, src/src/tests.rs) -/

/-- Key event value: Press, Release or Repeat. -/
inductive KeyValue where
  | press
  | release
  | rep
deriving DecidableEq, Repr

/-- A key event: scancode plus value.  Scancodes are u16 in the source; all the
codes used by the handler are small, so Nat is a faithful carrier. -/
structure KeyEvent where
  code : Nat
  value : KeyValue
deriving DecidableEq, Repr

/-- A relative (mouse-motion) event: axis code plus signed delta. -/
structure RelativeEvent where
  axis : Nat
  delta : Int
deriving DecidableEq, Repr

/-- Device context: name and path, as used by device predicates. -/
structure InputDeviceInfo where
  name : String
  path : String
deriving DecidableEq, Repr

/-- Inbound event (src/src/tests.rs uses exactly these two constructors). -/
inductive Event where
  | keyEvent : InputDeviceInfo → KeyEvent → Event
  | relativeEvent : InputDeviceInfo → RelativeEvent → Event
deriving DecidableEq, Repr

/-- Outbound action.  Delay carries a duration in nanoseconds (always 0 in the
tests).  MouseMovementEventCollection is the atomic motion batch. -/
inductive Action where
  | keyEvent : KeyEvent → Action
  | delay : Nat → Action
  | mouseMovementEventCollection : List RelativeEvent → Action
deriving DecidableEq, Repr

/-! ## Scancodes (evdev) used by the tests -/

def KEY_Q : Nat := 16
def KEY_W : Nat := 17
def KEY_LEFTCTRL : Nat := 29
def KEY_A : Nat := 30
def KEY_D : Nat := 32
def KEY_F : Nat := 33
def KEY_H : Nat := 35
def KEY_K : Nat := 37
def KEY_LEFTSHIFT : Nat := 42
def KEY_X : Nat := 45
def KEY_C : Nat := 46
def KEY_B : Nat := 48
def KEY_RIGHTSHIFT : Nat := 54
def KEY_LEFTALT : Nat := 56
def KEY_F12 : Nat := 88
def KEY_RIGHTCTRL : Nat := 97
def KEY_RIGHTALT : Nat := 100
def KEY_RIGHT : Nat := 106
def KEY_END : Nat := 107
def KEY_LEFTMETA : Nat := 125
def KEY_RIGHTMETA : Nat := 126

/-! ## Modifiers (spec sections 3 and 4.2) -/

/-- Modifier class: Shift, Control, Alt, Meta (Windows/Super). -/
inductive ModClass where
  | shift
  | control
  | alt
  | windows
deriving DecidableEq, Repr

/-- Modifier side for terminal (strict) modifiers. -/
inductive ModSide where
  | left
  | right
deriving DecidableEq, Repr

/-- Concrete scancode of a modifier class on a given side. -/
def modCode : ModClass → ModSide → Nat
  | ModClass.shift, ModSide.left => KEY_LEFTSHIFT
  | ModClass.shift, ModSide.right => KEY_RIGHTSHIFT
  | ModClass.control, ModSide.left => KEY_LEFTCTRL
  | ModClass.control, ModSide.right => KEY_RIGHTCTRL
  | ModClass.alt, ModSide.left => KEY_LEFTALT
  | ModClass.alt, ModSide.right => KEY_RIGHTALT
  | ModClass.windows, ModSide.left => KEY_LEFTMETA
  | ModClass.windows, ModSide.right => KEY_RIGHTMETA

/-- Class of a scancode, when it is in the fixed modifier table. -/
def classOf (c : Nat) : Option ModClass :=
  if c = KEY_LEFTSHIFT ∨ c = KEY_RIGHTSHIFT then some ModClass.shift
  else if c = KEY_LEFTCTRL ∨ c = KEY_RIGHTCTRL then some ModClass.control
  else if c = KEY_LEFTALT ∨ c = KEY_RIGHTALT then some ModClass.alt
  else if c = KEY_LEFTMETA ∨ c = KEY_RIGHTMETA then some ModClass.windows
  else none

/-- A key is a modifier iff its scancode is in the fixed modifier table. -/
def isModifier (c : Nat) : Bool := (classOf c).isSome

/-- A modifier requirement in a trigger or chord: loose (either side) or
terminal/strict (pinned side). -/
inductive Modifier where
  | loose : ModClass → Modifier
  | strict : ModClass → ModSide → Modifier
deriving DecidableEq, Repr

/-- Whether a held scancode satisfies a modifier requirement. -/
def modMatches : Modifier → Nat → Bool
  | Modifier.loose cl, c => decide (classOf c = some cl)
  | Modifier.strict cl s, c => c == modCode cl s

/-- Default concrete scancode pressed for a required modifier (left side for
loose requirements, the pinned side for strict ones). -/
def defaultCode : Modifier → Nat
  | Modifier.loose cl => modCode cl ModSide.left
  | Modifier.strict cl s => modCode cl s

/-! ## Config schema (spec sections 3 and 6) -/

/-- Trigger key: a concrete scancode or the ANY wildcard. -/
inductive TriggerKey where
  | code : Nat → TriggerKey
  | any
deriving DecidableEq, Repr

/-- A parsed trigger: required modifiers plus the trigger key. -/
structure Trigger where
  modifiers : List Modifier
  key : TriggerKey
deriving DecidableEq, Repr

/-- One element of a keymap action list: a key chord to send, or a nested
remap that installs a sub-map.  A remap is an ordered association list from
triggers to action lists; the empty action list models both the YAML empty
list and null (suppression). -/
inductive KeymapElem where
  | press : List Modifier → Nat → KeymapElem
  | remap : List (Trigger × List KeymapElem) → KeymapElem
deriving Repr

/-- A remap map: ordered list of trigger/action-list pairs. -/
abbrev Remap := List (Trigger × List KeymapElem)

/-- An application/device/window predicate: only (allow-list) or not
(deny-list).  Regex matching is modelled as string comparison; the claims do
not exercise regex features. -/
inductive PredList where
  | allow : List String → PredList
  | deny : List String → PredList
deriving DecidableEq, Repr

/-- A keymap entry (spec section 3, KeymapEntry). -/
structure KeymapEntry where
  name : Option String := none
  exactMatch : Bool := false
  application : Option PredList := none
  device : Option PredList := none
  window : Option PredList := none
  remap : Remap := []
deriving Repr

/-- The configuration: a flattened modmap (scancode rewrites) and the keymap
entry list. -/
structure Config where
  modmap : List (Nat × Nat) := []
  keymap : List KeymapEntry := []
deriving Repr

/-- Modmap application: unconditional scancode rewrite, first matching pair. -/
def modmapApply (mm : List (Nat × Nat)) (c : Nat) : Nat :=
  match mm.find? (fun p => p.1 == c) with
  | some p => p.2
  | none => c

/-! ## Keymap table builder (spec section 4.1)

Modelled from the spec: build_keymap_table lives in config/keymap.rs, which is
not under src/.  Entries with identical predicates that share a top-level
trigger are merged by deep-merging their remap maps.  The spec text says later
entries win at conflicting leaves, but test_merge_remaps_with_override
(src/src/tests.rs:481) pins the opposite: the earlier entry's leaf value is
kept, and only triggers absent from the earlier map are appended.  The model
follows the tests. -/

/-- Ordered lookup of a trigger in a remap map. -/
def lookupRemap (r : Remap) (t : Trigger) : Option (List KeymapElem) :=
  (r.find? (fun p => decide (p.1 = t))).map (fun p => p.2)

/-- Nesting-depth bound used when deep-merging sub-map trees.  The
configuration is a finite YAML tree; no configuration considered here comes
anywhere near this depth, and the merge result at leaves does not depend on
the fuel at all. -/
def MERGE_FUEL : Nat := 100

/-- Merge two action-list values for the same trigger: two nested sub-maps are
merged recursively (triggers of the earlier map keep their order and their
merged values, triggers only in the later map are appended); any other
conflict keeps the earlier value.  The fuel argument bounds the nesting
depth. -/
def mergeValFuel : Nat → List KeymapElem → List KeymapElem → List KeymapElem
  | 0, v1, _ => v1
  | Nat.succ f, v1, v2 =>
    match v1, v2 with
    | [KeymapElem.remap r1], [KeymapElem.remap r2] =>
      [KeymapElem.remap
        (r1.map (fun p =>
          (p.1,
            match lookupRemap r2 p.1 with
            | some v2b => mergeValFuel f p.2 v2b
            | none => p.2))
          ++ r2.filter (fun p => (lookupRemap r1 p.1).isNone))]
    | w1, _ => w1

/-- Deep merge of two remap maps (earlier map wins at conflicting leaves). -/
def mergeRemap (old new : Remap) : Remap :=
  old.map (fun p =>
    (p.1,
      match lookupRemap new p.1 with
      | some v2 => mergeValFuel MERGE_FUEL p.2 v2
      | none => p.2))
    ++ new.filter (fun p => (lookupRemap old p.1).isNone)

/-- Predicate equality of two entries: application, device, window and
exact_match must all agree for the entries to be merged. -/
def samePreds (a b : KeymapEntry) : Bool :=
  decide (a.exactMatch = b.exactMatch) && decide (a.application = b.application)
    && decide (a.device = b.device) && decide (a.window = b.window)

/-- Whether b shares a top-level trigger with a. -/
def sharesTopTrigger (a b : KeymapEntry) : Bool :=
  b.remap.any (fun p => (lookupRemap a.remap p.1).isSome)

/-- Insert an entry into the table, merging it into the first existing entry
with equal predicates and a shared top-level trigger. -/
def insertEntry : List KeymapEntry → KeymapEntry → List KeymapEntry
  | [], e => [e]
  | t :: rest, e =>
    if samePreds t e && sharesTopTrigger t e then
      { t with remap := mergeRemap t.remap e.remap } :: rest
    else
      t :: insertEntry rest e

/-- Build the merged keymap table from the declared keymap list. -/
def build_keymap_table (keymap : List KeymapEntry) : List KeymapEntry :=
  keymap.foldl insertEntry []

/-! ## Match engine (spec section 4.3) -/

/-- Whether a specific (non-wildcard) trigger key matches a scancode. -/
def triggerKeyMatches : TriggerKey → Nat → Bool
  | TriggerKey.code c, k => c == k
  | TriggerKey.any, _ => false

/-- A modifier requirement is satisfied when some held scancode matches it. -/
def modSatisfiedBy (m : Modifier) (held : List Nat) : Bool :=
  held.any (fun c => modMatches m c)

/-- Every held scancode satisfies some required modifier (used by
exact_match). -/
def heldCovered (mods : List Modifier) (held : List Nat) : Bool :=
  held.all (fun c => mods.any (fun m => modMatches m c))

/-- Modifier requirement check: all required modifiers held; under exact_match
the held set must also be covered by the requirement. -/
def modsMatch (exactFlag : Bool) (mods : List Modifier) (held : List Nat) : Bool :=
  mods.all (fun m => modSatisfiedBy m held) && (!exactFlag || heldCovered mods held)

/-- First specific trigger of the remap matching scancode k under the held
modifier set. -/
def lookupSpecificT (r : Remap) (exactFlag : Bool) (k : Nat) (held : List Nat) :
    Option (Trigger × List KeymapElem) :=
  r.find? (fun p => triggerKeyMatches p.1.key k && modsMatch exactFlag p.1.modifiers held)

/-- First ANY trigger matching under the held set; ANY never matches a
modifier key. -/
def lookupAnyT (r : Remap) (exactFlag : Bool) (k : Nat) (held : List Nat) :
    Option (Trigger × List KeymapElem) :=
  if isModifier k then none
  else r.find? (fun p =>
    decide (p.1.key = TriggerKey.any) && modsMatch exactFlag p.1.modifiers held)

/-- Lookup within one entry: specific triggers outrank the ANY wildcard. -/
def lookupEntryT (r : Remap) (exactFlag : Bool) (k : Nat) (held : List Nat) :
    Option (Trigger × List KeymapElem) :=
  match lookupSpecificT r exactFlag k held with
  | some x => some x
  | none => lookupAnyT r exactFlag k held

/-- Application/window predicate evaluation; an unavailable value (None) makes
the predicate non-matching (spec section 7, ClientUnavailable). -/
def appPredMatches : PredList → Option String → Bool
  | PredList.allow l, some s => l.contains s
  | PredList.deny l, some s => !(l.contains s)
  | _, none => false

/-- Device predicate evaluation against the originating device's name or
path suffix. -/
def devPredMatches : PredList → InputDeviceInfo → Bool
  | PredList.allow l, d => l.any (fun s => s == d.name || s.data.isSuffixOf d.path.data)
  | PredList.deny l, d => !(l.any (fun s => s == d.name || s.data.isSuffixOf d.path.data))

/-- The match-time context supplied by the window-manager client. -/
structure Context where
  application : Option String := none
  window : Option String := none
deriving Repr

/-- Whether an entry's predicates accept the current context and device. -/
def entryApplies (e : KeymapEntry) (ctx : Context) (dev : InputDeviceInfo) : Bool :=
  (match e.application with
   | none => true
   | some p => appPredMatches p ctx.application) &&
  (match e.window with
   | none => true
   | some p => appPredMatches p ctx.window) &&
  (match e.device with
   | none => true
   | some p => devPredMatches p dev)

/-- Result of a successful match: the matched trigger's modifiers, the
entry's exact_match flag and the action list. -/
structure MatchResult where
  trigModifiers : List Modifier
  exactFlag : Bool
  elems : List KeymapElem

/-- Match one entry: predicates first, then remap lookup. -/
def matchEntry (ctx : Context) (dev : InputDeviceInfo) (k : Nat) (held : List Nat)
    (e : KeymapEntry) : Option MatchResult :=
  if entryApplies e ctx dev then
    (lookupEntryT e.remap e.exactMatch k held).map
      (fun tv => ⟨tv.1.modifiers, e.exactMatch, tv.2⟩)
  else none

/-- Iterate the table in declaration order and commit the first match. -/
def matchKeymap (ctx : Context) (dev : InputDeviceInfo) (k : Nat) (held : List Nat) :
    List KeymapEntry → Option MatchResult
  | [] => none
  | e :: rest =>
    match matchEntry ctx dev k held e with
    | some r => some r
    | none => matchKeymap ctx dev k held rest

/-! ## Action generator (spec section 4.4)

Modelled from the spec: the generator compares the matched trigger's modifiers
with the output chord's modifiers.  Modifiers required by the chord but not
held are pressed first and released last; held modifiers consumed by the
trigger but not required by the chord are released before the chord and
re-pressed after it, with the exact Delay(0) placement pinned by the
scenarios of spec section 8 and src/src/tests.rs. -/

/-- Synthetic press/release sequence for one output chord. -/
def chordActions (held : List Nat) (trigMods : List Modifier)
    (outMods : List Modifier) (key : Nat) : List Action :=
  let missing := (outMods.filter (fun m => !modSatisfiedBy m held)).map defaultCode
  let extra := held.filter (fun c =>
    trigMods.any (fun m => modMatches m c) && !(outMods.any (fun m => modMatches m c)))
  missing.map (fun c => Action.keyEvent ⟨c, KeyValue.press⟩)
    ++ extra.map (fun c => Action.keyEvent ⟨c, KeyValue.release⟩)
    ++ [Action.keyEvent ⟨key, KeyValue.press⟩, Action.keyEvent ⟨key, KeyValue.release⟩]
    ++ [Action.delay 0]
    ++ extra.map (fun c => Action.keyEvent ⟨c, KeyValue.press⟩)
    ++ [Action.delay 0]
    ++ missing.map (fun c => Action.keyEvent ⟨c, KeyValue.release⟩)

/-- The active sub-map context: the nested remap and the exact_match policy it
inherited from its entry. -/
structure SubmapState where
  remap : Remap
  exactFlag : Bool

/-- Expand a matched action list: each chord contributes its synthetic
sequence; a nested remap element installs a sub-map and emits nothing. -/
def runActionList (held : List Nat) (trigMods : List Modifier) (exactFlag : Bool) :
    List KeymapElem → List Action × Option SubmapState
  | [] => ([], none)
  | KeymapElem.press oMods k :: rest =>
    let r := runActionList held trigMods exactFlag rest
    (chordActions held trigMods oMods k ++ r.1, r.2)
  | KeymapElem.remap rm :: rest =>
    let r := runActionList held trigMods exactFlag rest
    (r.1,
      match r.2 with
      | some s => some s
      | none => some ⟨rm, exactFlag⟩)

/-! ## Handler state and event processing (spec sections 4.2 to 4.6) -/

/-- Handler state: held modifier scancodes, the active sub-map, and the
pending motion accumulation. -/
structure HState where
  held : List Nat := []
  submap : Option SubmapState := none
  pending : List RelativeEvent := []

/-- Top-level keymap match for a press of scancode k; on success the action
list is expanded and any nested remap becomes the new sub-map. -/
def pressTop (table : List KeymapEntry) (ctx : Context) (dev : InputDeviceInfo)
    (s : HState) (k : Nat) : HState × Option (List Action) :=
  match matchKeymap ctx dev k s.held table with
  | some r =>
    let ra := runActionList s.held r.trigModifiers r.exactFlag r.elems
    ({ s with submap := ra.2 }, some ra.1)
  | none => (s, none)

/-- Core press matching: an active sub-map is consulted first (specific
triggers only); on a miss the sub-map is discarded and the top-level keymap is
consulted.  Returns none when no rule matched. -/
def pressCore (table : List KeymapEntry) (ctx : Context) (dev : InputDeviceInfo)
    (s : HState) (k : Nat) : HState × Option (List Action) :=
  match s.submap with
  | some sub =>
    match lookupSpecificT sub.remap sub.exactFlag k s.held with
    | some tv =>
      let ra := runActionList s.held tv.1.modifiers sub.exactFlag tv.2
      ({ s with submap := ra.2 }, some ra.1)
    | none => pressTop table ctx dev { s with submap := none } k
  | none => pressTop table ctx dev s k

/-- Handle a key press after modmap rewriting.  A modifier press while a
sub-map is active does not dismiss the sub-map; a modifier press matching no
rule is added to the held set and emitted unchanged; a non-modifier press
matching no rule is emitted as-is. -/
def handleKeyPress (table : List KeymapEntry) (ctx : Context) (dev : InputDeviceInfo)
    (s : HState) (k : Nat) : HState × List Action :=
  if s.submap.isSome && isModifier k then
    ({ s with held := s.held ++ [k] }, [Action.keyEvent ⟨k, KeyValue.press⟩])
  else
    match pressCore table ctx dev s k with
    | (s', some as) => (s', as)
    | (s', none) =>
      if isModifier k then
        ({ s' with held := s'.held ++ [k] }, [Action.keyEvent ⟨k, KeyValue.press⟩])
      else
        (s', [Action.keyEvent ⟨k, KeyValue.press⟩])

/-- Handle a key release: a modifier release updates the held set; every
release is emitted unchanged (spec section 4.4, suppression note). -/
def handleKeyRelease (s : HState) (k : Nat) : HState × List Action :=
  if isModifier k then
    ({ s with held := s.held.filter (fun c => !(c == k)) },
      [Action.keyEvent ⟨k, KeyValue.release⟩])
  else
    (s, [Action.keyEvent ⟨k, KeyValue.release⟩])

/-- Flush the accumulated relative events as one atomic motion batch. -/
def flushPending (s : HState) : HState × List Action :=
  match s.pending with
  | [] => (s, [])
  | ps => ({ s with pending := [] }, [Action.mouseMovementEventCollection ps])

/-- Modelled from the spec: DISGUISED_EVENT_OFFSETTER is declared in
event_handler.rs, which is not under src/.  The spec requires a value greater
than 0x2E7 and at most u16::MAX - 26; the concrete value here satisfies the
documented constraints. -/
def DISGUISED_EVENT_OFFSETTER : Nat := 59974

/-- Disguise encoding of a relative event: offset plus axis-and-sign index
(even for positive deltas, odd for negative). -/
def disguise (r : RelativeEvent) : Nat :=
  DISGUISED_EVENT_OFFSETTER + 2 * r.axis + (if r.delta < 0 then 1 else 0)

/-- Handle a relative event: the disguised code goes through the modmap; a
rewrite to a real key replays it as a press/release pair; otherwise a matching
keymap rule consumes it, and an unmatched event is accumulated for motion
batching. -/
def handleRelative (cfg : Config) (table : List KeymapEntry) (ctx : Context)
    (dev : InputDeviceInfo) (s : HState) (re : RelativeEvent) : HState × List Action :=
  let dc := disguise re
  let c := modmapApply cfg.modmap dc
  if c = dc then
    match pressCore table ctx dev s c with
    | (s', some as) =>
      let f := flushPending s'
      (f.1, f.2 ++ as)
    | (s', none) => ({ s' with pending := s'.pending ++ [re] }, [])
  else
    let f := flushPending s
    let r1 := handleKeyPress table ctx dev f.1 c
    let r2 := handleKeyRelease r1.1 c
    (r2.1, f.2 ++ r1.2 ++ r2.2)

/-- Process one inbound event.  Key events flush any pending motion first
(they are an intervening key action); the modmap rewrite precedes modifier
tracking and matching. -/
def handleEvent (cfg : Config) (table : List KeymapEntry) (ctx : Context)
    (s : HState) : Event → HState × List Action
  | Event.keyEvent dev ke =>
    let code := modmapApply cfg.modmap ke.code
    match ke.value with
    | KeyValue.press =>
      let f := flushPending s
      let r := handleKeyPress table ctx dev f.1 code
      (r.1, f.2 ++ r.2)
    | KeyValue.release =>
      let f := flushPending s
      let r := handleKeyRelease f.1 code
      (r.1, f.2 ++ r.2)
    | KeyValue.rep =>
      let f := flushPending s
      (f.1, f.2 ++ [Action.keyEvent ⟨code, KeyValue.rep⟩])
  | Event.relativeEvent dev re => handleRelative cfg table ctx dev s re

/-- One step of the event fold: process the event and append its actions. -/
def handlerStep (cfg : Config) (table : List KeymapEntry) (ctx : Context)
    (p : HState × List Action) (ev : Event) : HState × List Action :=
  let q := handleEvent cfg table ctx p.1 ev
  (q.1, p.2 ++ q.2)

/-- The synchronous batch entry point: build the merged keymap table, fold the
handler over the inbound events, and flush any trailing motion batch. -/
def on_events (cfg : Config) (ctx : Context) (events : List Event) : List Action :=
  let table := build_keymap_table cfg.keymap
  let r := events.foldl (handlerStep cfg table ctx) (⟨[], none, []⟩, [])
  r.2 ++ (flushPending r.1).2

/-! ## The KDE window-manager client (src/src/client/kde_client.rs) -/

/-- The active-window record shared with the KWin script (kde_client.rs:221). -/
structure ActiveWindow where
  res_class : String
  res_name : String
  title : String
deriving DecidableEq, Repr

/-- Shallow embedding of KdeClient (kde_client.rs:13): the D-Bus machinery is
abstracted into the Boolean outcome of the connection attempt. -/
structure KdeClient where
  supported : Option Bool
  active_window : ActiveWindow
deriving DecidableEq, Repr

/-- The client value built at the top of KdeClient::new (kde_client.rs:125):
the supported field starts out as None. -/
def KdeClient.init : KdeClient :=
  { supported := none, active_window := ⟨String.mk [], String.mk [], String.mk []⟩ }

/-- KdeClient::new (kde_client.rs:124): perform the connection attempt, then
unconditionally overwrite supported with Some of the outcome (conn_res.is_ok)
before returning the client. -/
def KdeClient.new (connectOk : Bool) : KdeClient :=
  { KdeClient.init with supported := some connectOk }

/-- Client::supported for KdeClient (kde_client.rs:184) unwraps the field; the
unwrap cannot fail exactly when the field is Some. -/
def KdeClient.supportedGet (c : KdeClient) (h : c.supported.isSome) : Bool :=
  c.supported.get h

/-! ## Concrete configurations and runs (src/src/tests.rs) -/

/-- The device returned by get_input_device_info in the tests. -/
def testDevice : InputDeviceInfo := ⟨"Some Device", "/dev/input/event0"⟩

def keyPressEv (c : Nat) : Event := Event.keyEvent testDevice ⟨c, KeyValue.press⟩

def keyReleaseEv (c : Nat) : Event := Event.keyEvent testDevice ⟨c, KeyValue.release⟩

def pressAct (c : Nat) : Action := Action.keyEvent ⟨c, KeyValue.press⟩

def releaseAct (c : Nat) : Action := Action.keyEvent ⟨c, KeyValue.release⟩

def delay0 : Action := Action.delay 0

/-- The context of the tests' StaticClient with no current application. -/
def defaultCtx : Context := {}

def looseC : Modifier := Modifier.loose ModClass.control

def looseM : Modifier := Modifier.loose ModClass.alt

def looseSh : Modifier := Modifier.loose ModClass.shift

def strictCtrlL : Modifier := Modifier.strict ModClass.control ModSide.left

def strictCtrlR : Modifier := Modifier.strict ModClass.control ModSide.right

def strictAltL : Modifier := Modifier.strict ModClass.alt ModSide.left

def strictWinL : Modifier := Modifier.strict ModClass.windows ModSide.left

def keyTrig (mods : List Modifier) (k : Nat) : Trigger := ⟨mods, TriggerKey.code k⟩

def anyTrig (mods : List Modifier) : Trigger := ⟨mods, TriggerKey.any⟩

def chordOf (mods : List Modifier) (k : Nat) : List KeymapElem :=
  [KeymapElem.press mods k]

/-- keymap: [{remap: {M-f: C-right}}] (test_interleave_modifiers). -/
def cfgInterleave : Config :=
  { keymap := [{ remap := [(keyTrig [looseM] KEY_F, chordOf [looseC] KEY_RIGHT)] }] }

/-- The same rule with exact_match: true (test_exact_match_true). -/
def cfgExactTrue : Config :=
  { keymap :=
      [{ exactMatch := true,
         remap := [(keyTrig [looseM] KEY_F, chordOf [looseC] KEY_RIGHT)] }] }

/-- Two C-x entries with equal predicates whose sub-maps conflict at h
(test_merge_remaps_with_override): the first maps h to C-a, the second maps
h to C-b and c to C-q. -/
def cfgMergeOverride : Config :=
  { keymap :=
      [{ remap := [(keyTrig [looseC] KEY_X,
          [KeymapElem.remap [(keyTrig [] KEY_H, chordOf [looseC] KEY_A)]])] },
       { remap := [(keyTrig [looseC] KEY_X,
          [KeymapElem.remap [(keyTrig [] KEY_H, chordOf [looseC] KEY_B),
                             (keyTrig [] KEY_C, chordOf [looseC] KEY_Q)]])] }] }

/-- Inbound events of test_merge_remaps_with_override, first run: activate the
C-x sub-map, then press h. -/
def mergeOverrideEvents : List Event :=
  [keyPressEv KEY_LEFTCTRL, keyPressEv KEY_X, keyReleaseEv KEY_X,
   keyReleaseEv KEY_LEFTCTRL, keyPressEv KEY_H]

/-- Expected outbound actions of test_merge_remaps_with_override, first run:
the conflicting trigger h produces the first entry's C-a. -/
def mergeOverrideExpected : List Action :=
  [pressAct KEY_LEFTCTRL, releaseAct KEY_X, releaseAct KEY_LEFTCTRL,
   pressAct KEY_LEFTCTRL, pressAct KEY_A, releaseAct KEY_A, delay0, delay0,
   releaseAct KEY_LEFTCTRL]

/-- f12 suppressed by the first entry, with a later entry's f12 sub-map
(test_mixing_no_keypress_and_remap_in_keymap_action). -/
def cfgFirstMatch : Config :=
  { keymap :=
      [{ remap := [(keyTrig [] KEY_F12, [])] },
       { remap := [(keyTrig [] KEY_F12,
          [KeymapElem.remap [(keyTrig [] KEY_A, chordOf [] KEY_B)]])] }] }

/-- keymap: [{remap: {c_l: end}}] (test_terminal_modifier). -/
def cfgTerminalCtrl : Config :=
  { keymap := [{ remap := [(keyTrig [] KEY_LEFTCTRL, chordOf [] KEY_END)] }] }

/-- keymap: [{remap: {a: b, ANY: null}}] (test_any_key). -/
def cfgAnySuppress : Config :=
  { keymap :=
      [{ remap := [(keyTrig [] KEY_A, chordOf [] KEY_B), (anyTrig [], [])] }] }

/-- keymap: [{remap: {ANY: null}}]
(test_any_key_doesnt_match_modifier_1). -/
def cfgAnyOnly : Config :=
  { keymap := [{ remap := [(anyTrig [], [])] }] }

/-- Single-entry keymap mapping key k to the empty action list; the YAML empty
list and null both parse to an empty action list. -/
def suppressConfig (k : Nat) : Config :=
  { keymap := [{ remap := [(keyTrig [] k, [])] }] }

/-- Whether an action-list value is a leaf for merging purposes, i.e. not a
pure nested sub-map. -/
def isLeafVal : List KeymapElem → Bool
  | [KeymapElem.remap _] => false
  | _ => true

/-! ## Further configurations (model validation against src/src/tests.rs) -/

/-- modmap: [{remap: {a: b}}] (test_basic_modmap). -/
def cfgBasicModmap : Config := { modmap := [(KEY_A, KEY_B)] }

/-- modmap: [{remap: {XRIGHTCURSOR: b}}] (test_relative_events):
XRIGHTCURSOR resolves to the disguised code of REL_X with positive delta. -/
def cfgRelModmap : Config := { modmap := [(DISGUISED_EVENT_OFFSETTER, KEY_B)] }

/-- Nested sub-map C-x: {remap: {h: C-a}} under a given exact_match policy
(test_exact_match_true_nested / test_exact_match_false_nested). -/
def cfgNested (exactFlag : Bool) : Config :=
  { keymap :=
      [{ exactMatch := exactFlag,
         remap := [(keyTrig [looseC] KEY_X,
           [KeymapElem.remap [(keyTrig [] KEY_H, chordOf [looseC] KEY_A)]])] }] }

/-- Firefox-specific entry before a generic one (test_application_override). -/
def cfgAppOverride : Config :=
  { keymap :=
      [{ name := some "firefox",
         application := some (PredList.allow ["firefox"]),
         remap := [(keyTrig [] KEY_A, chordOf [looseC] KEY_C)] },
       { name := some "generic",
         remap := [(keyTrig [] KEY_A, chordOf [looseC] KEY_B)] }] }

/-- Device-specific entry before a generic one (test_device_override). -/
def cfgDevOverride : Config :=
  { keymap :=
      [{ name := some "event1",
         device := some (PredList.allow ["event1"]),
         remap := [(keyTrig [] KEY_A, chordOf [looseC] KEY_C)] },
       { name := some "event0",
         remap := [(keyTrig [] KEY_A, chordOf [looseC] KEY_B)] }] }

/-- Two C-x entries with disjoint sub-maps (test_merge_remaps). -/
def cfgMergeDisjoint : Config :=
  { keymap :=
      [{ remap := [(keyTrig [looseC] KEY_X,
          [KeymapElem.remap [(keyTrig [] KEY_H, chordOf [looseC] KEY_A)]])] },
       { remap := [(keyTrig [looseC] KEY_X,
          [KeymapElem.remap [(keyTrig [] KEY_K, chordOf [looseC] KEY_W)]])] }] }

/-- f12 mapped to a d press followed by a sub-map
(test_mixing_keypress_and_remap_in_keymap_action). -/
def cfgMixKeypress : Config :=
  { keymap :=
      [{ remap := [(keyTrig [] KEY_F12,
          [KeymapElem.press [] KEY_D,
           KeymapElem.remap [(keyTrig [] KEY_A, chordOf [] KEY_B)]])] }] }

/-- remap: {Shift-ANY: null} (test_any_key_doesnt_match_modifier_2). -/
def cfgShiftAny : Config :=
  { keymap := [{ remap := [(anyTrig [looseSh], [])] }] }

/-- remap: {c_l-c_r: end} (test_terminal_modifier_with_other_modifier). -/
def cfgTerminalBoth : Config :=
  { keymap := [{ remap := [(keyTrig [strictCtrlL] KEY_RIGHTCTRL, chordOf [] KEY_END)] }] }

/-- remap: {alt_l-alt_r: c-x} (test_terminal_modifier_sends_other_modifier_combo). -/
def cfgTerminalAltCombo : Config :=
  { keymap := [{ remap := [(keyTrig [strictAltL] KEY_RIGHTALT, chordOf [looseC] KEY_X)] }] }

/-- remap: {c_r-c_l: c-x} (test_terminal_modifier_sends_same_modifier_combo). -/
def cfgTerminalSameCombo : Config :=
  { keymap := [{ remap := [(keyTrig [strictCtrlR] KEY_LEFTCTRL, chordOf [looseC] KEY_X)] }] }

/-- exact_match with terminal modifiers (test_terminal_modifier_with_exact_match). -/
def cfgTerminalExact : Config :=
  { keymap :=
      [{ exactMatch := true,
         remap := [(keyTrig [] KEY_RIGHTSHIFT, chordOf [] KEY_C),
                   (keyTrig [strictWinL] KEY_RIGHTSHIFT, chordOf [] KEY_K)] }] }

/-- Common inbound prefix that activates the C-x sub-map and releases Ctrl
before a final key press (used by the merge tests). -/
def subActivateEvents (last : Nat) : List Event :=
  [keyPressEv KEY_LEFTCTRL, keyPressEv KEY_X, keyReleaseEv KEY_X,
   keyReleaseEv KEY_LEFTCTRL, keyPressEv last]


/-! ## Helper lemmas -/

/-- Merging two values keeps the earlier one whenever it is a leaf, for any
fuel. -/
theorem mergeValFuel_leaf (f : Nat) (v1 v2 : List KeymapElem)
    (h : isLeafVal v1 = true) : mergeValFuel f v1 v2 = v1 := by
  cases f with
  | zero => rfl
  | succ f =>
    simp only [mergeValFuel]
    split
    · simp [isLeafVal] at h
    · rfl

/-- Ordered lookup distributes over appending on the left. -/
theorem lookupRemap_append_left (a b : Remap) (t : Trigger) (v : List KeymapElem)
    (h : lookupRemap a t = some v) : lookupRemap (a ++ b) t = some v := by
  unfold lookupRemap at h ⊢
  rw [List.find?_append]
  rcases hf : List.find? (fun p => decide (p.1 = t)) a with _ | x
  · rw [hf] at h
    simp at h
  · rw [hf] at h ⊢
    simpa using h

/-- Ordered lookup on a cons cell. -/
theorem lookupRemap_cons (p : Trigger × List KeymapElem) (rest : Remap) (t : Trigger) :
    lookupRemap (p :: rest) t = if p.1 = t then some p.2 else lookupRemap rest t := by
  by_cases hp : p.1 = t <;> simp [lookupRemap, List.find?_cons, hp]

/-- Looking a trigger up in the merged image of the earlier map returns the
earlier leaf value unchanged. -/
theorem lookupRemap_map_merge (r2 : Remap) (t : Trigger) (v1 : List KeymapElem)
    (r1 : Remap) (h1 : lookupRemap r1 t = some v1) (hleaf : isLeafVal v1 = true) :
    lookupRemap (r1.map (fun p =>
      (p.1,
        match lookupRemap r2 p.1 with
        | some v2 => mergeValFuel MERGE_FUEL p.2 v2
        | none => p.2))) t = some v1 := by
  induction r1 with
  | nil => simp [lookupRemap] at h1
  | cons p rest ih =>
    rw [lookupRemap_cons] at h1
    rw [List.map_cons, lookupRemap_cons]
    by_cases hp : p.1 = t
    · simp only [hp, if_true] at h1
      simp only [hp, if_true]
      have hv : p.2 = v1 := by injection h1
      subst hv
      cases hl : lookupRemap r2 t with
      | none => simp [hl]
      | some v2 => simp [hl, mergeValFuel_leaf _ _ _ hleaf]
    · simp only [hp, if_false] at h1
      simp only [hp, if_false]
      exact ih h1

/-! ## Claim theorems -/

/-- C1 (amended): when two keymap entries have equal predicates and share a
top-level trigger, the builder deep-merges their remap maps and at any
conflicting leaf the EARLIER entry's value takes effect; on the config of
test_merge_remaps_with_override the conflicting trigger h produces the first
entry's C-a action. -/
theorem merge_leaf_prefers_earlier_entry (r1 r2 : Remap) (t : Trigger)
    (v1 : List KeymapElem) (h1 : lookupRemap r1 t = some v1)
    (hleaf : isLeafVal v1 = true) :
    lookupRemap (mergeRemap r1 r2) t = some v1 ∧
      on_events cfgMergeOverride defaultCtx mergeOverrideEvents =
        mergeOverrideExpected := by
  constructor
  · unfold mergeRemap
    exact lookupRemap_append_left _ _ _ _
      (lookupRemap_map_merge r2 t v1 r1 h1 hleaf)
  · decide

/-- C1 witness: the merge-precedence theorem applied to the conflicting leaf
h of test_merge_remaps_with_override's two sub-maps. -/
theorem merge_leaf_prefers_earlier_entry_witness :
    lookupRemap
      (mergeRemap [(keyTrig [] KEY_H, chordOf [looseC] KEY_A)]
        [(keyTrig [] KEY_H, chordOf [looseC] KEY_B),
         (keyTrig [] KEY_C, chordOf [looseC] KEY_Q)])
      (keyTrig [] KEY_H) = some (chordOf [looseC] KEY_A) ∧
      on_events cfgMergeOverride defaultCtx mergeOverrideEvents =
        mergeOverrideExpected :=
  merge_leaf_prefers_earlier_entry
    [(keyTrig [] KEY_H, chordOf [looseC] KEY_A)]
    [(keyTrig [] KEY_H, chordOf [looseC] KEY_B),
     (keyTrig [] KEY_C, chordOf [looseC] KEY_Q)]
    (keyTrig [] KEY_H) (chordOf [looseC] KEY_A) rfl rfl

/-- C1 counterexample: on the config of test_merge_remaps_with_override the
conflicting trigger h produces the EARLIER entry's C-a, and the later entry's
B press never appears in the outbound actions, refuting the claim that the
later entry's value takes effect. -/
theorem merge_override_later_counterexample :
    on_events cfgMergeOverride defaultCtx mergeOverrideEvents =
      mergeOverrideExpected ∧
      pressAct KEY_B ∉ on_events cfgMergeOverride defaultCtx mergeOverrideEvents := by
  decide

/-- C2 (amended): an inbound modifier Press that no keymap rule matches is
added to the held-modifier set and emitted unchanged; a modifier press that a
rule matches is consumed by the rule instead. -/
theorem modifier_press_unmatched_passthrough (table : List KeymapEntry)
    (ctx : Context) (dev : InputDeviceInfo) (s : HState) (k : Nat)
    (hmod : isModifier k = true) (hsub : s.submap = none)
    (hmatch : matchKeymap ctx dev k s.held table = none) :
    handleKeyPress table ctx dev s k =
      ({ s with held := s.held ++ [k] }, [Action.keyEvent ⟨k, KeyValue.press⟩]) := by
  unfold handleKeyPress pressCore pressTop
  rw [hsub]
  simp [hmatch, hmod, hsub]

/-- C2 witness: a left-Control press against an empty keymap is recorded as
held and passed through unchanged. -/
theorem modifier_press_unmatched_passthrough_witness :
    handleKeyPress [] defaultCtx testDevice ⟨[], none, []⟩ KEY_LEFTCTRL =
      (⟨[KEY_LEFTCTRL], none, []⟩, [Action.keyEvent ⟨KEY_LEFTCTRL, KeyValue.press⟩]) :=
  modifier_press_unmatched_passthrough [] defaultCtx testDevice ⟨[], none, []⟩
    KEY_LEFTCTRL rfl rfl rfl

/-- C2 counterexample: with the rule c_l: end of test_terminal_modifier, the
inbound LeftCtrl Press is consumed by the rule; the outbound list is the
synthetic End sequence and does not contain the LeftCtrl press, refuting the
claim that every modifier press is emitted unchanged. -/
theorem modifier_press_consumed_counterexample :
    on_events cfgTerminalCtrl defaultCtx [keyPressEv KEY_LEFTCTRL] =
      [pressAct KEY_END, releaseAct KEY_END, delay0, delay0] ∧
      pressAct KEY_LEFTCTRL ∉
        on_events cfgTerminalCtrl defaultCtx [keyPressEv KEY_LEFTCTRL] := by
  decide

/-- C3: with keymap M-f: C-right and inbound LeftAlt Press then F Press,
on_events returns exactly the nine actions of test_interleave_modifiers,
including the Delay(0) placement. -/
theorem interleave_modifiers_exact_sequence :
    on_events cfgInterleave defaultCtx [keyPressEv KEY_LEFTALT, keyPressEv KEY_F] =
      [pressAct KEY_LEFTALT, pressAct KEY_LEFTCTRL, releaseAct KEY_LEFTALT,
       pressAct KEY_RIGHT, releaseAct KEY_RIGHT, delay0, pressAct KEY_LEFTALT,
       delay0, releaseAct KEY_LEFTCTRL] := by
  decide

/-- C4: under exact_match a rule matches only when every required modifier is
held and every held modifier satisfies some required modifier (the held set
equals the required set); concretely, the extra Shift of test_exact_match_true
prevents the match and the three inbound events pass through unchanged. -/
theorem exact_match_requires_exact_modifier_set (r : Remap) (k : Nat)
    (held : List Nat) (t : Trigger) (v : List KeymapElem)
    (h : lookupEntryT r true k held = some (t, v)) :
    (t.modifiers.all (fun m => modSatisfiedBy m held) = true ∧
      heldCovered t.modifiers held = true) ∧
      on_events cfgExactTrue defaultCtx
        [keyPressEv KEY_LEFTALT, keyPressEv KEY_LEFTSHIFT, keyPressEv KEY_F] =
        [pressAct KEY_LEFTALT, pressAct KEY_LEFTSHIFT, pressAct KEY_F] := by
  refine ⟨?_, by decide⟩
  have fromMods : modsMatch true t.modifiers held = true →
      t.modifiers.all (fun m => modSatisfiedBy m held) = true ∧
        heldCovered t.modifiers held = true := by
    intro hm
    unfold modsMatch at hm
    have hm2 := (Bool.and_eq_true _ _).mp hm
    refine ⟨hm2.1, by simpa using hm2.2⟩
  unfold lookupEntryT at h
  rcases hs : lookupSpecificT r true k held with _ | x
  · rw [hs] at h
    unfold lookupAnyT at h
    by_cases hmod : isModifier k
    · simp [hmod] at h
    · simp [hmod] at h
      have hp := List.find?_some h
      exact fromMods ((Bool.and_eq_true _ _).mp hp).2
  · rw [hs] at h
    have hxe : x = (t, v) := by injection h
    subst hxe
    have hp := List.find?_some hs
    exact fromMods ((Bool.and_eq_true _ _).mp hp).2

/-- C4 witness: the exact-match characterisation applied to the successful
lookup of win_l-shift_r: k with LeftMeta held
(test_terminal_modifier_with_exact_match). -/
theorem exact_match_requires_exact_modifier_set_witness :
    ((keyTrig [strictWinL] KEY_RIGHTSHIFT).modifiers.all
        (fun m => modSatisfiedBy m [KEY_LEFTMETA]) = true ∧
      heldCovered (keyTrig [strictWinL] KEY_RIGHTSHIFT).modifiers [KEY_LEFTMETA] = true) ∧
      on_events cfgExactTrue defaultCtx
        [keyPressEv KEY_LEFTALT, keyPressEv KEY_LEFTSHIFT, keyPressEv KEY_F] =
        [pressAct KEY_LEFTALT, pressAct KEY_LEFTSHIFT, pressAct KEY_F] :=
  exact_match_requires_exact_modifier_set
    [(keyTrig [] KEY_RIGHTSHIFT, chordOf [] KEY_C),
     (keyTrig [strictWinL] KEY_RIGHTSHIFT, chordOf [] KEY_K)]
    KEY_RIGHTSHIFT [KEY_LEFTMETA]
    (keyTrig [strictWinL] KEY_RIGHTSHIFT) (chordOf [] KEY_K) rfl

/-- C5: for every key k mapped by a rule whose output is the empty list or
null, the inbound Press produces no outbound action and the subsequent
inbound Release of that key is emitted. -/
theorem empty_action_suppresses_press_and_emits_release (k : Nat) :
    on_events (suppressConfig k) defaultCtx [keyPressEv k, keyReleaseEv k] =
      [releaseAct k] := by
  cases hm : isModifier k <;>
    simp [on_events, handlerStep, build_keymap_table, insertEntry, handleEvent,
      flushPending, modmapApply, handleKeyPress, pressCore, pressTop, matchKeymap,
      matchEntry, entryApplies, lookupEntryT, lookupSpecificT, lookupAnyT,
      triggerKeyMatches, modsMatch, modSatisfiedBy, heldCovered, runActionList,
      handleKeyRelease, suppressConfig, keyTrig, keyPressEv, keyReleaseEv,
      releaseAct, testDevice, defaultCtx, chordOf, hm, List.find?_cons]

/-- C6: matching iterates entries in declaration order and commits the first
entry whose trigger and predicates match, never consulting later entries; with
an earlier entry mapping f12 to the empty list and a later f12 sub-map entry
(test_mixing_no_keypress_and_remap_in_keymap_action), f12 is suppressed, the
sub-map is never installed, and the unmatched key a passes through. -/
theorem first_matching_entry_commits (ctx : Context) (dev : InputDeviceInfo)
    (k : Nat) (held : List Nat) (pre : List KeymapEntry) (e : KeymapEntry)
    (post : List KeymapEntry) (r : MatchResult)
    (hpre : ∀ e' ∈ pre, matchEntry ctx dev k held e' = none)
    (he : matchEntry ctx dev k held e = some r) :
    matchKeymap ctx dev k held (pre ++ e :: post) = some r ∧
      on_events cfgFirstMatch defaultCtx
        [keyPressEv KEY_F12, keyReleaseEv KEY_F12, keyPressEv KEY_A,
         keyReleaseEv KEY_A] =
        [releaseAct KEY_F12, pressAct KEY_A, releaseAct KEY_A] := by
  refine ⟨?_, by decide⟩
  induction pre with
  | nil => simp [matchKeymap, he]
  | cons p ps ih =>
    have hp : matchEntry ctx dev k held p = none := hpre p (by simp)
    simp only [List.cons_append, matchKeymap, hp]
    exact ih (fun e' h' => hpre e' (by simp [h']))

/-- C6 witness: with a non-matching f12 entry first, the a: b entry is the
first match and commits. -/
theorem first_matching_entry_commits_witness :
    matchKeymap defaultCtx testDevice KEY_A []
      ([{ remap := [(keyTrig [] KEY_F12, [])] }] ++
        { remap := [(keyTrig [] KEY_A, chordOf [] KEY_B)] } :: []) =
      some ⟨[], false, chordOf [] KEY_B⟩ ∧
      on_events cfgFirstMatch defaultCtx
        [keyPressEv KEY_F12, keyReleaseEv KEY_F12, keyPressEv KEY_A,
         keyReleaseEv KEY_A] =
        [releaseAct KEY_F12, pressAct KEY_A, releaseAct KEY_A] :=
  first_matching_entry_commits defaultCtx testDevice KEY_A []
    [{ remap := [(keyTrig [] KEY_F12, [])] }]
    { remap := [(keyTrig [] KEY_A, chordOf [] KEY_B)] } [] ⟨[], false, chordOf [] KEY_B⟩
    (by
      intro e' h'
      rw [List.mem_singleton] at h'
      subst h'
      rfl)
    rfl

/-- C7: the ANY wildcard never matches a modifier key, and within one entry it
applies only when no specific trigger matched; with remap a: b, ANY: null the
key a follows its specific rule while other non-modifier presses are
suppressed, and with remap ANY: null a pure modifier press/release sequence
passes through unchanged. -/
theorem any_wildcard_semantics (r : Remap) (exactFlag : Bool) (k : Nat)
    (held : List Nat) :
    (∀ t v, lookupAnyT r exactFlag k held = some (t, v) → isModifier k = false) ∧
      (∀ x, lookupSpecificT r exactFlag k held = some x →
        lookupEntryT r exactFlag k held = some x) ∧
      on_events cfgAnySuppress defaultCtx
        [keyPressEv KEY_A, keyReleaseEv KEY_A, keyPressEv KEY_C, keyReleaseEv KEY_C] =
        [pressAct KEY_B, releaseAct KEY_B, delay0, delay0, releaseAct KEY_A,
         releaseAct KEY_C] ∧
      on_events cfgAnyOnly defaultCtx
        [keyPressEv KEY_LEFTCTRL, keyReleaseEv KEY_LEFTCTRL] =
        [pressAct KEY_LEFTCTRL, releaseAct KEY_LEFTCTRL] := by
  refine ⟨?_, ?_, by decide, by decide⟩
  · intro t v h
    unfold lookupAnyT at h
    cases hmod : isModifier k with
    | false => rfl
    | true =>
      rw [hmod] at h
      simp at h
  · intro x h
    unfold lookupEntryT
    rw [h]

/-- C7 witness: the wildcard lemmas applied to the configs of test_any_key and
test_any_key_doesnt_match_modifier_1 at concrete keys. -/
theorem any_wildcard_semantics_witness :
    isModifier KEY_C = false ∧
      lookupEntryT [(keyTrig [] KEY_A, chordOf [] KEY_B), (anyTrig [], [])]
        false KEY_A [] = some (keyTrig [] KEY_A, chordOf [] KEY_B) :=
  ⟨(any_wildcard_semantics [(anyTrig [], [])] false KEY_C []).1 (anyTrig []) [] rfl,
   (any_wildcard_semantics [(keyTrig [] KEY_A, chordOf [] KEY_B), (anyTrig [], [])]
      false KEY_A []).2.1 (keyTrig [] KEY_A, chordOf [] KEY_B) rfl⟩

/-- Folding the handler with an empty config over relative-only input only
accumulates the relative events, in order. -/
theorem relative_only_fold (d : InputDeviceInfo) (rs : List RelativeEvent)
    (held : List Nat) (ps : List RelativeEvent) (acc : List Action) :
    (rs.map (Event.relativeEvent d)).foldl (handlerStep {} [] defaultCtx)
      (⟨held, none, ps⟩, acc) = (⟨held, none, ps ++ rs⟩, acc) := by
  induction rs generalizing ps with
  | nil => simp
  | cons r rest ih =>
    have hstep : handlerStep {} [] defaultCtx (⟨held, none, ps⟩, acc)
        (Event.relativeEvent d r) = (⟨held, none, ps ++ [r]⟩, acc) := by
      simp [handlerStep, handleEvent, handleRelative, modmapApply, pressCore,
        pressTop, matchKeymap]
    rw [List.map_cons, List.foldl_cons, hstep, ih]
    simp

/-- C8: an inbound stream of two or more consecutive relative events, none of
which matches a remap rule (here: the empty config of
test_mouse_movement_event_accumulation), produces a single MotionBatch holding
exactly those relative events in arrival order. -/
theorem consecutive_relative_events_coalesce (rs : List RelativeEvent)
    (d : InputDeviceInfo) (h2 : 2 ≤ rs.length) :
    on_events {} defaultCtx (rs.map (Event.relativeEvent d)) =
      [Action.mouseMovementEventCollection rs] := by
  unfold on_events
  have htab : build_keymap_table (Config.keymap {}) = [] := rfl
  rw [htab]
  simp only [relative_only_fold d rs [] [] []]
  rcases rs with _ | ⟨a, rest⟩
  · simp at h2
  · simp [flushPending]

/-- C8 witness: the two relative events of
test_mouse_movement_event_accumulation coalesce into one batch. -/
theorem consecutive_relative_events_coalesce_witness :
    on_events {} defaultCtx
      ([⟨0, 1⟩, ⟨1, 1⟩].map (Event.relativeEvent testDevice)) =
      [Action.mouseMovementEventCollection [⟨0, 1⟩, ⟨1, 1⟩]] :=
  consecutive_relative_events_coalesce [⟨0, 1⟩, ⟨1, 1⟩] testDevice (by decide)

/-- C9: the disguise offset exceeds every real scancode (all below 0x2E7 at
the time of writing) and leaves room for the 26 axis-and-sign indices below
u16::MAX, so every disguised code fits in a u16 and exceeds all real
scancodes. -/
theorem disguised_event_offset_bounds :
    0x2e7 < DISGUISED_EVENT_OFFSETTER ∧
      DISGUISED_EVENT_OFFSETTER + 26 ≤ 65535 ∧
      (∀ i : Fin 26, 0x2e7 < DISGUISED_EVENT_OFFSETTER + i.val ∧
        DISGUISED_EVENT_OFFSETTER + i.val ≤ 65535) ∧
      (∀ (a : Fin 13) (neg : Bool),
        0x2e7 < disguise ⟨a.val, if neg then -1 else 1⟩ ∧
          disguise ⟨a.val, if neg then -1 else 1⟩ ≤ 65535) := by
  decide

/-- C10: KdeClient::new always sets the supported field to Some of the
connection outcome before returning, so KdeClient::supported's unwrap cannot
fail, whether or not the KWin connection succeeded. -/
theorem kde_client_supported_always_some (connectOk : Bool) :
    (KdeClient.new connectOk).supported = some connectOk ∧
      ((KdeClient.new connectOk).supported).isSome = true ∧
      KdeClient.supportedGet (KdeClient.new connectOk) (by cases connectOk <;> rfl) =
        connectOk := by
  cases connectOk <;> simp [KdeClient.new, KdeClient.init, KdeClient.supportedGet]

/-! ## Model validation: the remaining scenarios of src/src/tests.rs -/

/-- test_basic_modmap: a is rewritten to b for presses and releases; real b
events pass through. -/
theorem model_test_basic_modmap :
    on_events cfgBasicModmap defaultCtx
      [keyPressEv KEY_A, keyReleaseEv KEY_A, keyPressEv KEY_B, keyReleaseEv KEY_B] =
      [pressAct KEY_B, releaseAct KEY_B, pressAct KEY_B, releaseAct KEY_B] := by
  decide

/-- test_relative_events: a relative REL_X event modmapped via its disguised
code produces a b press/release pair. -/
theorem model_test_relative_events :
    on_events cfgRelModmap defaultCtx [Event.relativeEvent testDevice ⟨0, 1⟩] =
      [pressAct KEY_B, releaseAct KEY_B] := by
  decide

/-- test_exact_match_false / test_exact_match_default: with loose matching the
extra Shift does not block the M-f rule. -/
theorem model_test_exact_match_false :
    on_events cfgInterleave defaultCtx
      [keyPressEv KEY_LEFTALT, keyPressEv KEY_LEFTSHIFT, keyPressEv KEY_F] =
      [pressAct KEY_LEFTALT, pressAct KEY_LEFTSHIFT, pressAct KEY_LEFTCTRL,
       releaseAct KEY_LEFTALT, pressAct KEY_RIGHT, releaseAct KEY_RIGHT, delay0,
       pressAct KEY_LEFTALT, delay0, releaseAct KEY_LEFTCTRL] := by
  decide

/-- test_exact_match_true_nested: the sub-map inherits exact_match, so a held
Shift blocks the sub-map's h rule and h passes through. -/
theorem model_test_exact_match_true_nested :
    on_events (cfgNested true) defaultCtx
      [keyPressEv KEY_LEFTCTRL, keyPressEv KEY_X, keyReleaseEv KEY_X,
       keyReleaseEv KEY_LEFTCTRL, keyPressEv KEY_LEFTSHIFT, keyPressEv KEY_H] =
      [pressAct KEY_LEFTCTRL, releaseAct KEY_X, releaseAct KEY_LEFTCTRL,
       pressAct KEY_LEFTSHIFT, pressAct KEY_H] := by
  decide

/-- test_exact_match_false_nested: with loose matching the held Shift does not
block the sub-map's h rule. -/
theorem model_test_exact_match_false_nested :
    on_events (cfgNested false) defaultCtx
      [keyPressEv KEY_LEFTCTRL, keyPressEv KEY_X, keyReleaseEv KEY_X,
       keyReleaseEv KEY_LEFTCTRL, keyPressEv KEY_LEFTSHIFT, keyPressEv KEY_H] =
      [pressAct KEY_LEFTCTRL, releaseAct KEY_X, releaseAct KEY_LEFTCTRL,
       pressAct KEY_LEFTSHIFT, pressAct KEY_LEFTCTRL, pressAct KEY_A,
       releaseAct KEY_A, delay0, delay0, releaseAct KEY_LEFTCTRL] := by
  decide

/-- test_application_override: without a current application the generic entry
fires; with firefox the specific entry fires. -/
theorem model_test_application_override :
    on_events cfgAppOverride defaultCtx [keyPressEv KEY_A] =
      [pressAct KEY_LEFTCTRL, pressAct KEY_B, releaseAct KEY_B, delay0, delay0,
       releaseAct KEY_LEFTCTRL] ∧
      on_events cfgAppOverride { application := some "firefox" } [keyPressEv KEY_A] =
        [pressAct KEY_LEFTCTRL, pressAct KEY_C, releaseAct KEY_C, delay0, delay0,
         releaseAct KEY_LEFTCTRL] := by
  decide

/-- test_device_override: the device predicate selects the entry by the
originating device path. -/
theorem model_test_device_override :
    on_events cfgDevOverride defaultCtx [keyPressEv KEY_A] =
      [pressAct KEY_LEFTCTRL, pressAct KEY_B, releaseAct KEY_B, delay0, delay0,
       releaseAct KEY_LEFTCTRL] ∧
      on_events cfgDevOverride defaultCtx
        [Event.keyEvent ⟨"Other Device", "/dev/input/event1"⟩ ⟨KEY_A, KeyValue.press⟩] =
        [pressAct KEY_LEFTCTRL, pressAct KEY_C, releaseAct KEY_C, delay0, delay0,
         releaseAct KEY_LEFTCTRL] := by
  decide

/-- test_merge_remaps: both disjoint sub-maps of the two C-x entries are
reachable after merging. -/
theorem model_test_merge_remaps :
    on_events cfgMergeDisjoint defaultCtx (subActivateEvents KEY_H) =
      [pressAct KEY_LEFTCTRL, releaseAct KEY_X, releaseAct KEY_LEFTCTRL,
       pressAct KEY_LEFTCTRL, pressAct KEY_A, releaseAct KEY_A, delay0, delay0,
       releaseAct KEY_LEFTCTRL] ∧
      on_events cfgMergeDisjoint defaultCtx (subActivateEvents KEY_K) =
        [pressAct KEY_LEFTCTRL, releaseAct KEY_X, releaseAct KEY_LEFTCTRL,
         pressAct KEY_LEFTCTRL, pressAct KEY_W, releaseAct KEY_W, delay0, delay0,
         releaseAct KEY_LEFTCTRL] := by
  decide

/-- test_merge_remaps_with_override, second run: the later entry's c trigger
is appended to the merged sub-map and reachable. -/
theorem model_test_merge_remaps_with_override_c :
    on_events cfgMergeOverride defaultCtx (subActivateEvents KEY_C) =
      [pressAct KEY_LEFTCTRL, releaseAct KEY_X, releaseAct KEY_LEFTCTRL,
       pressAct KEY_LEFTCTRL, pressAct KEY_Q, releaseAct KEY_Q, delay0, delay0,
       releaseAct KEY_LEFTCTRL] := by
  decide

/-- test_mixing_keypress_and_remap_in_keymap_action: the d press is emitted
and the trailing sub-map captures the next key press. -/
theorem model_test_mixing_keypress_and_remap :
    on_events cfgMixKeypress defaultCtx
      [keyPressEv KEY_F12, keyReleaseEv KEY_F12, keyPressEv KEY_A,
       keyReleaseEv KEY_A] =
      [pressAct KEY_D, releaseAct KEY_D, delay0, delay0, releaseAct KEY_F12,
       pressAct KEY_B, releaseAct KEY_B, delay0, delay0, releaseAct KEY_A] := by
  decide

/-- test_no_keymap_action: the suppressed f12 press emits nothing and the
release is still emitted. -/
theorem model_test_no_keymap_action :
    on_events (suppressConfig KEY_F12) defaultCtx
      [keyPressEv KEY_F12, keyReleaseEv KEY_F12] = [releaseAct KEY_F12] := by
  decide

/-- test_any_key_doesnt_match_modifier_2: Shift-ANY leaves a pure modifier
sequence untouched. -/
theorem model_test_any_key_doesnt_match_modifier_2 :
    on_events cfgShiftAny defaultCtx
      [keyPressEv KEY_LEFTSHIFT, keyPressEv KEY_LEFTCTRL,
       keyReleaseEv KEY_LEFTCTRL, keyReleaseEv KEY_LEFTSHIFT] =
      [pressAct KEY_LEFTSHIFT, pressAct KEY_LEFTCTRL, releaseAct KEY_LEFTCTRL,
       releaseAct KEY_LEFTSHIFT] := by
  decide

/-- test_terminal_modifier_with_other_modifier: the held LeftCtrl consumed by
the trigger is released around the End chord and re-pressed after it. -/
theorem model_test_terminal_modifier_with_other_modifier :
    on_events cfgTerminalBoth defaultCtx
      [keyPressEv KEY_LEFTCTRL, keyPressEv KEY_RIGHTCTRL] =
      [pressAct KEY_LEFTCTRL, releaseAct KEY_LEFTCTRL, pressAct KEY_END,
       releaseAct KEY_END, delay0, pressAct KEY_LEFTCTRL, delay0] := by
  decide

/-- test_terminal_modifier_sends_other_modifier_combo: alt_l-alt_r to c-x
presses Ctrl, releases the held Alt, sends x, then restores. -/
theorem model_test_terminal_modifier_sends_other_combo :
    on_events cfgTerminalAltCombo defaultCtx
      [keyPressEv KEY_LEFTALT, keyPressEv KEY_RIGHTALT] =
      [pressAct KEY_LEFTALT, pressAct KEY_LEFTCTRL, releaseAct KEY_LEFTALT,
       pressAct KEY_X, releaseAct KEY_X, delay0, pressAct KEY_LEFTALT, delay0,
       releaseAct KEY_LEFTCTRL] := by
  decide

/-- test_terminal_modifier_sends_same_modifier_combo: the held RightCtrl
already satisfies the chord's loose Ctrl, so nothing is pressed or released
around x. -/
theorem model_test_terminal_modifier_sends_same_combo :
    on_events cfgTerminalSameCombo defaultCtx
      [keyPressEv KEY_RIGHTCTRL, keyPressEv KEY_LEFTCTRL] =
      [pressAct KEY_RIGHTCTRL, pressAct KEY_X, releaseAct KEY_X, delay0, delay0] := by
  decide

/-- test_terminal_modifier_with_exact_match: with LeftMeta held, the bare
shift_r rule fails the exact check and win_l-shift_r fires instead. -/
theorem model_test_terminal_modifier_with_exact_match :
    on_events cfgTerminalExact defaultCtx
      [keyPressEv KEY_LEFTMETA, keyPressEv KEY_RIGHTSHIFT] =
      [pressAct KEY_LEFTMETA, releaseAct KEY_LEFTMETA, pressAct KEY_K,
       releaseAct KEY_K, delay0, pressAct KEY_LEFTMETA, delay0] := by
  decide

end Xremap
